import Mathlib

/-!
Shallow embedding of the Aurix trading-bot core (src/bot) and proofs of the
frozen claims about it.  Floating-point numbers of the Python source are
modelled as rationals (exact arithmetic); Python strings stay strings;
Python string messages whose exact formatting is irrelevant to the claims
(warnings, log messages, signal explanations) are modelled as inductive
message tags carrying the interpolated numbers; `datetime.now()` is modelled
as an explicit clock parameter of type rational.
-/

/-- Minimum of a list of rationals, 0 on the empty list (numpy `min` raises
on empty input; the embedded call sites only reach it on nonempty lists). -/
def listMin : List ℚ → ℚ
  | [] => 0
  | x :: xs => xs.foldl min x

/-- Maximum of a list of rationals, 0 on the empty list. -/
def listMax : List ℚ → ℚ
  | [] => 0
  | x :: xs => xs.foldl max x

/-- Arithmetic mean of a list (numpy `mean`); 0 on the empty list. -/
def listMean (l : List ℚ) : ℚ := l.sum / (l.length : ℚ)

/-- Python `l[-1]` on a nonempty list; 0 on the empty list. -/
def pyLast (l : List ℚ) : ℚ := l.getLastD 0

/-- Python `l[i]` for a nonnegative in-range index; 0 out of range. -/
def pyIdx (l : List ℚ) (i : ℕ) : ℚ := l.getD i 0

/-- Python `l[-k:]`: the trailing `k` elements (the whole list when `k = 0`,
matching Python's `l[-0:] = l`). -/
def pyTail (l : List ℚ) (k : ℕ) : List ℚ :=
  if k = 0 then l else l.drop (l.length - k)

/-- Python `l[a:b]` for nonnegative `a ≤ b` within range. -/
def pySlice (l : List ℚ) (a b : ℕ) : List ℚ := (l.drop a).take (b - a)

/-- Floor of a rational as an integer, computed from the reduced fraction. -/
def ratFloor (q : ℚ) : Int := Int.fdiv q.num q.den

/-- Python `int(x)` on a float: truncation toward zero. -/
def pyTrunc (q : ℚ) : Int := if q < 0 then -(ratFloor (-q)) else ratFloor q

/-- Python `abs(x)`. -/
def ratAbs (q : ℚ) : ℚ := if q < 0 then -q else q

/-- Whether the first character list is a prefix of the second. -/
def isPrefOf : List Char → List Char → Bool
  | [], _ => true
  | _ :: _, [] => false
  | a :: as, b :: bs => a == b && isPrefOf as bs

/-- Whether the first character list occurs contiguously in the second
(Python's `pat in s` on strings). -/
def containsSeq (pat : List Char) : List Char → Bool
  | [] => isPrefOf pat []
  | s@(_ :: rest) => isPrefOf pat s || containsSeq pat rest

/-- Python `pat in s` for strings. -/
def hasSubstr (pat s : String) : Bool := containsSeq pat.data s.data

/-- Python `s.upper()` (ASCII symbols only in this code base). -/
def upperStr (s : String) : String := String.mk (s.data.map Char.toUpper)

/-- Python `s.upper().replace('/', '')` as used by `get_pip_value`. -/
def upperNoSlash (s : String) : String :=
  String.mk ((s.data.map Char.toUpper).filter (fun c => c ≠ '/'))

/-!
Section: RiskManager (src/bot/risk_manager.py)
-/

/-- Warning messages attached to a `PositionSize`; the source builds these as
formatted strings, here each message is a tag (the numeric interpolations do
not matter to any claim).  The source's string concatenation with `" | "`
becomes list append. -/
inductive Wmsg
  | riskAdjusted
  | invalidStop
  | marginExceeded
  | smallLot
deriving DecidableEq, Repr

/-- Result record of `RiskManager.calculate_position_size`
(`PositionSize` dataclass). -/
structure PositionSize where
  lot_size : ℚ
  units : Int
  risk_amount : ℚ
  risk_percent : ℚ
  stop_loss_pips : ℚ
  potential_loss : ℚ
  potential_profit : ℚ
  margin_required : ℚ
  is_valid : Bool
  warning : List Wmsg
deriving DecidableEq, Repr

/-- The mutable fields of a `RiskManager` instance.  `account_type` is stored
already lowercased, as `__init__` does. -/
structure RiskManager where
  equity : ℚ
  leverage : Int
  account_type : String
  max_risk_percent : ℚ
  default_risk_percent : ℚ
deriving DecidableEq, Repr

/-- The `RiskManager.LOT_SIZES` dictionary. -/
def LOT_SIZES : List (String × ℚ) :=
  [("standard", 100000), ("mini", 10000), ("micro", 1000)]

/-- `RiskManager.LOT_SIZES.get(t, 100000)`. -/
def lotSizesGet (t : String) : ℚ :=
  ((LOT_SIZES.find? (fun kv => kv.1 == t)).map (·.2)).getD 100000

/-- `self.lot_multiplier`, computed in `__init__` from the account type. -/
def RiskManager.lot_multiplier (rm : RiskManager) : ℚ :=
  lotSizesGet rm.account_type

/-- The `RiskManager.PIP_VALUES` dictionary (per standard lot, USD). -/
def PIP_VALUES : List (String × ℚ) :=
  [("EURUSD", 10), ("GBPUSD", 10), ("AUDUSD", 10), ("NZDUSD", 10),
   ("USDCHF", 10), ("USDCAD", 10), ("USDJPY", 91 / 10), ("EURJPY", 91 / 10),
   ("GBPJPY", 91 / 10), ("XAUUSD", 10), ("BTCUSD", 1), ("BTCUSDT", 1),
   ("ETHUSD", 1), ("ETHUSDT", 1)]

/-- `RiskManager.PIP_VALUES.get(s, 10.0)`. -/
def pipValuesGet (s : String) : ℚ :=
  ((PIP_VALUES.find? (fun kv => kv.1 == s)).map (·.2)).getD 10

/-- `RiskManager.get_pip_value`. -/
def RiskManager.get_pip_value (rm : RiskManager) (symbol : String) (lot_size : ℚ) : ℚ :=
  let base_pip_value := pipValuesGet (upperNoSlash symbol)
  let type_multiplier := rm.lot_multiplier / lotSizesGet "standard"
  base_pip_value * lot_size * type_multiplier

/-- `RiskManager.calculate_pips`: the stop distance expressed in pips, with
the per-instrument pip size chosen by substring tests on the symbol. -/
def RiskManager.calculate_pips (_rm : RiskManager) (symbol : String)
    (entry_price stop_loss : ℚ) : ℚ :=
  let price_diff := ratAbs (entry_price - stop_loss)
  let su := upperStr symbol
  let pip_size : ℚ :=
    if hasSubstr "JPY" su then 1 / 100
    else if hasSubstr "BTC" su || hasSubstr "ETH" su then 1
    else if hasSubstr "XAU" su then 1 / 10
    else 1 / 10000
  price_diff / pip_size

/-- `RiskManager.calculate_position_size`.  Note two details carried over
from the source: the margin-failure message REPLACES any earlier
risk-clamping message (plain assignment, not append), while the small-lot
message is appended to whatever warning exists. -/
def RiskManager.calculate_position_size (rm : RiskManager) (symbol : String)
    (entry_price stop_loss take_profit : ℚ) (risk_percent? : Option ℚ) :
    PositionSize :=
  let rp0 := risk_percent?.getD rm.default_risk_percent
  let clamped := rp0 > rm.max_risk_percent
  let rp := if clamped then rm.max_risk_percent else rp0
  let warn1 : List Wmsg := if clamped then [.riskAdjusted] else []
  let risk_amount := rm.equity * (rp / 100)
  let sl_pips := rm.calculate_pips symbol entry_price stop_loss
  if sl_pips ≤ 0 then
    { lot_size := 0, units := 0, risk_amount := risk_amount, risk_percent := rp,
      stop_loss_pips := 0, potential_loss := 0, potential_profit := 0,
      margin_required := 0, is_valid := false, warning := [.invalidStop] }
  else
    let pip_value_per_lot := rm.get_pip_value symbol 1
    let lot_size := risk_amount / (sl_pips * pip_value_per_lot)
    let units := pyTrunc (lot_size * rm.lot_multiplier)
    let margin_required := ((units : ℚ) * entry_price) / (rm.leverage : ℚ)
    let potential_loss := sl_pips * pip_value_per_lot * lot_size
    let tp_pips := rm.calculate_pips symbol entry_price take_profit
    let potential_profit := tp_pips * pip_value_per_lot * lot_size
    let is_valid : Bool := if margin_required > rm.equity then false else true
    let warn2 : List Wmsg :=
      if margin_required > rm.equity then [.marginExceeded] else warn1
    let warn3 : List Wmsg :=
      if lot_size < 1 / 100 then warn2 ++ [.smallLot] else warn2
    { lot_size := lot_size, units := units, risk_amount := risk_amount,
      risk_percent := rp, stop_loss_pips := sl_pips,
      potential_loss := potential_loss, potential_profit := potential_profit,
      margin_required := margin_required, is_valid := is_valid,
      warning := warn3 }

/-!
Section: StrategyEngine (src/bot/strategy_engine.py)
-/

/-- One OHLCV candle.  The source stores these as dictionaries; the `open`
field is spelled `open_` because `open` is a Lean keyword. -/
structure Candle where
  open_ : ℚ
  high : ℚ
  low : ℚ
  close : ℚ
  volume : ℚ
  timestamp : ℚ
deriving DecidableEq, Repr

/-- Configuration of a `StrategyEngine` instance (its `__init__` fields; the
`_prev_ema_fast`/`_prev_ema_medium` attributes are never read). -/
structure StrategyEngine where
  ema_fast : ℕ
  ema_medium : ℕ
  ema_slow : ℕ
  swing_lookback : ℕ
  min_rrr : ℚ
  min_confidence : ℚ
deriving DecidableEq, Repr

/-- Tail of the EMA recurrence `ema[i] = data[i]*mult + ema[i-1]*(1-mult)`. -/
def emaFrom (mult prev : ℚ) : List ℚ → List ℚ
  | [] => []
  | x :: xs =>
    let e := x * mult + prev * (1 - mult)
    e :: emaFrom mult e xs

/-- `StrategyEngine.calculate_ema`: empty when the data is shorter than the
period; otherwise zeros up to index `period - 2`, the simple average of the
first `period` values at index `period - 1`, and the EMA recurrence after
that.  (Faithful for `period ≥ 1`; the source produces NaNs for `period = 0`,
which rationals cannot represent.) -/
def calculate_ema (data : List ℚ) (period : ℕ) : List ℚ :=
  if data.length < period then []
  else
    let mult : ℚ := 2 / ((period : ℚ) + 1)
    let seed := (data.take period).sum / (period : ℚ)
    List.replicate (period - 1) 0 ++ [seed] ++ emaFrom mult seed (data.drop period)

/-- `StrategyEngine.find_swing_low`: the most recent local minimum within a
symmetric lookback window, with the source's two fallbacks. -/
def find_swing_low (lows : List ℚ) (lookback : ℕ) : ℚ :=
  if lows.length < lookback * 2 + 1 then
    if lows.length ≥ lookback then listMin (pyTail lows lookback) else listMin lows
  else
    let candidates :=
      (List.range' lookback (lows.length - lookback - lookback)).filterMap
        (fun i =>
          if pyIdx lows i = listMin (pySlice lows (i - lookback) (i + lookback + 1))
          then some (pyIdx lows i) else none)
    match candidates.getLast? with
    | some v => v
    | none => listMin (pyTail lows lookback)

/-- `StrategyEngine.find_swing_high`, symmetric to `find_swing_low`. -/
def find_swing_high (highs : List ℚ) (lookback : ℕ) : ℚ :=
  if highs.length < lookback * 2 + 1 then
    if highs.length ≥ lookback then listMax (pyTail highs lookback) else listMax highs
  else
    let candidates :=
      (List.range' lookback (highs.length - lookback - lookback)).filterMap
        (fun i =>
          if pyIdx highs i = listMax (pySlice highs (i - lookback) (i + lookback + 1))
          then some (pyIdx highs i) else none)
    match candidates.getLast? with
    | some v => v
    | none => listMax (pyTail highs lookback)

/-- Result of `StrategyEngine.detect_crossover`. -/
inductive Crossover
  | bullish
  | bearish
deriving DecidableEq, Repr

/-- `StrategyEngine.detect_crossover`. -/
def detect_crossover (ema_fast_current ema_medium_current
    ema_fast_prev ema_medium_prev : ℚ) : Option Crossover :=
  if ema_fast_prev ≤ ema_medium_prev ∧ ema_fast_current > ema_medium_current then
    some .bullish
  else if ema_fast_prev ≥ ema_medium_prev ∧ ema_fast_current < ema_medium_current then
    some .bearish
  else
    none

/-- The directional part of `StrategyEngine.calculate_confidence`: the sum of
the trend-alignment and price-position contributions accumulated in the
`action == 'BUY'` / `action == 'SELL'` branches (0 for any other action). -/
def directionScore (action : String) (close ema_9 ema_21 ema_200 : ℚ) : ℚ :=
  if action = "BUY" then
    (if close > ema_200 then 25 else 0)
    + (if ema_9 > ema_21 then 20 else 0)
    + (if ema_21 > ema_200 then 15 else 0)
    + (let price_above_ema9 := (close - ema_9) / close * 100
       if 0 < price_above_ema9 ∧ price_above_ema9 < 1 then 15
       else if price_above_ema9 > 2 then -10 else 0)
  else if action = "SELL" then
    (if close < ema_200 then 25 else 0)
    + (if ema_9 < ema_21 then 20 else 0)
    + (if ema_21 < ema_200 then 15 else 0)
    + (let price_below_ema9 := (ema_9 - close) / close * 100
       if 0 < price_below_ema9 ∧ price_below_ema9 < 1 then 15
       else if price_below_ema9 > 2 then -10 else 0)
  else 0

/-- The volume-confirmation block of `calculate_confidence`, keeping the
source's `if volume_ratio > 1.2 ... elif volume_ratio > 1.5` branch order. -/
def volumeBonus (volume_ratio : ℚ) : ℚ :=
  if volume_ratio > 6 / 5 then 15
  else if volume_ratio > 3 / 2 then 25
  else 0

/-- `StrategyEngine.calculate_confidence`: the accumulated bonuses, clamped
to `[0, 100]`. -/
def calculate_confidence (action : String) (close ema_9 ema_21 ema_200
    volume_ratio : ℚ) : ℚ :=
  max 0 (min 100 (directionScore action close ema_9 ema_21 ema_200
    + volumeBonus volume_ratio))

/-- Pieces of the `reason` explanation string of a `TradeSignal`; the source
joins formatted strings with `" | "`, here modelled as an ordered list of
tags carrying the interpolated numbers. -/
inductive ReasonPart
  | goldenCross
  | deathCross
  | priceAboveSlowEma (close ema : ℚ)
  | priceBelowSlowEma (close ema : ℚ)
  | slAtSwingLow (v : ℚ)
  | slAtSwingHigh (v : ℚ)
  | tpWithRrr (r : ℚ)
  | confidenceIs (c : ℚ)
deriving DecidableEq, Repr

/-- All fields of a `TradeSignal` except the `timestamp` that
`get_signal` stamps with `datetime.now()`. -/
structure TradeSignalCore where
  action : String
  entry_price : ℚ
  stop_loss : ℚ
  take_profit : ℚ
  swing_point : ℚ
  ema_9 : ℚ
  ema_21 : ℚ
  ema_200 : ℚ
  risk_reward_ratio : ℚ
  confidence : ℚ
  reason : List ReasonPart
deriving DecidableEq, Repr

/-- The `TradeSignal` dataclass. -/
structure TradeSignal where
  action : String
  entry_price : ℚ
  stop_loss : ℚ
  take_profit : ℚ
  swing_point : ℚ
  ema_9 : ℚ
  ema_21 : ℚ
  ema_200 : ℚ
  risk_reward_ratio : ℚ
  confidence : ℚ
  timestamp : ℚ
  reason : List ReasonPart
deriving DecidableEq, Repr

/-- Steps 3-5 of `get_signal` (stop derivation, target derivation,
confidence gate) once the direction has been fixed. -/
def signalTail (eng : StrategyEngine) (action : String)
    (lows highs : List ℚ) (current_close ce9 ce21 ce200 volume_ratio : ℚ)
    (r1 r2 : ReasonPart) : Option TradeSignalCore :=
  let entry_price := current_close
  let sl : ℚ × ℚ × ReasonPart :=
    if action = "BUY" then
      let swing_low := find_swing_low lows eng.swing_lookback
      (swing_low - swing_low * (1 / 1000), swing_low, .slAtSwingLow swing_low)
    else
      let swing_high := find_swing_high highs eng.swing_lookback
      (swing_high + swing_high * (1 / 1000), swing_high, .slAtSwingHigh swing_high)
  let stop_loss := sl.1
  let swing_point := sl.2.1
  let r3 := sl.2.2
  let sl_distance := ratAbs (entry_price - stop_loss)
  if sl_distance = 0 then none
  else
    let tp_distance := sl_distance * eng.min_rrr
    let take_profit :=
      if action = "BUY" then entry_price + tp_distance else entry_price - tp_distance
    let risk_reward_ratio := tp_distance / sl_distance
    let confidence :=
      calculate_confidence action current_close ce9 ce21 ce200 volume_ratio
    if confidence < eng.min_confidence then none
    else
      some { action := action, entry_price := entry_price, stop_loss := stop_loss,
             take_profit := take_profit, swing_point := swing_point,
             ema_9 := ce9, ema_21 := ce21, ema_200 := ce200,
             risk_reward_ratio := risk_reward_ratio, confidence := confidence,
             reason := [r1, r2, r3, .tpWithRrr risk_reward_ratio,
                        .confidenceIs confidence] }

/-- The whole decision pipeline of `StrategyEngine.get_signal`, producing
every field of the signal except the timestamp. -/
def get_signalCore (eng : StrategyEngine) (data : List Candle) :
    Option TradeSignalCore :=
  let min_candles := max (eng.ema_slow + 10) 250
  if data.length < min_candles then none
  else
    let highs := data.map (·.high)
    let lows := data.map (·.low)
    let closes := data.map (·.close)
    let volumes := data.map (·.volume)
    let ema9 := calculate_ema closes eng.ema_fast
    let ema21 := calculate_ema closes eng.ema_medium
    let ema200 := calculate_ema closes eng.ema_slow
    let current_close := pyLast closes
    let ce9 := pyLast ema9
    let ce21 := pyLast ema21
    let ce200 := pyLast ema200
    let pe9 := if ema9.length > 1 then pyIdx ema9 (ema9.length - 2) else ce9
    let pe21 := if ema21.length > 1 then pyIdx ema21 (ema21.length - 2) else ce21
    let avg_volume :=
      if volumes.length ≥ 20 then listMean (pyTail volumes 20) else listMean volumes
    let current_volume := pyLast volumes
    let volume_ratio := if avg_volume > 0 then current_volume / avg_volume else 1
    let is_uptrend := current_close > ce200
    let is_downtrend := current_close < ce200
    if ¬is_uptrend ∧ ¬is_downtrend then none
    else
      match detect_crossover ce9 ce21 pe9 pe21 with
      | none => none
      | some Crossover.bullish =>
        if is_uptrend then
          signalTail eng "BUY" lows highs current_close ce9 ce21 ce200
            volume_ratio .goldenCross (.priceAboveSlowEma current_close ce200)
        else none
      | some Crossover.bearish =>
        if is_downtrend then
          signalTail eng "SELL" lows highs current_close ce9 ce21 ce200
            volume_ratio .deathCross (.priceBelowSlowEma current_close ce200)
        else none

/-- `StrategyEngine.get_signal`: the pipeline above with the signal's
`timestamp` field stamped from the clock (`datetime.now()` in the source),
which is the only place the clock is read. -/
def get_signal (eng : StrategyEngine) (data : List Candle) (now : ℚ) :
    Option TradeSignal :=
  (get_signalCore eng data).map fun c =>
    { action := c.action, entry_price := c.entry_price, stop_loss := c.stop_loss,
      take_profit := c.take_profit, swing_point := c.swing_point,
      ema_9 := c.ema_9, ema_21 := c.ema_21, ema_200 := c.ema_200,
      risk_reward_ratio := c.risk_reward_ratio, confidence := c.confidence,
      timestamp := now, reason := c.reason }

/-- A signal with its timestamp field zeroed, for comparing two signals on
every other field. -/
def stripTimestamp (s : TradeSignal) : TradeSignal := { s with timestamp := 0 }

/-!
Section: TradeExecutor (src/bot/trade_executor.py), dry-run variant
-/

/-- `OrderStatus` enum. -/
inductive OrderStatus
  | pending
  | filled
  | partiallyFilled
  | cancelled
  | rejected
  | error
deriving DecidableEq, Repr

/-- Error messages of an `OrderResult`; formatted strings in the source,
modelled as tags carrying the interpolated values. -/
inductive Emsg
  | insufficientBalance (required available : ℚ)
  | positionNotFound (position_id : String)
  | sizingFailed (warning : List Wmsg)
deriving DecidableEq, Repr

/-- An entry of `DryRunExecutor.positions` (a plain dict in the source). -/
structure DryPosition where
  id : String
  symbol : String
  side : String
  quantity : ℚ
  entry_price : ℚ
  stop_loss : Option ℚ
  take_profit : Option ℚ
  margin : ℚ
  opened_at : ℚ
  pnl : ℚ
deriving DecidableEq, Repr

/-- The `OrderResult` dataclass (its `raw_response` field, always empty in
the dry-run paths, is omitted). -/
structure OrderResult where
  order_id : String
  symbol : String
  side : String
  order_type : String
  status : OrderStatus
  entry_price : ℚ
  filled_price : Option ℚ
  quantity : ℚ
  filled_quantity : ℚ
  stop_loss : Option ℚ
  take_profit : Option ℚ
  timestamp : ℚ
  error_message : Option Emsg
deriving DecidableEq, Repr

/-- The mutable state of a `DryRunExecutor`. -/
structure DryRunExecutor where
  balance : ℚ
  positions : List DryPosition
  order_history : List OrderResult
  order_counter : ℕ
  is_connected : Bool
deriving DecidableEq, Repr

/-- The order id `f"DRY_{counter:06d}"`: decimal digits left-padded with
zeros to at least six characters. -/
def fmtOrderId (n : ℕ) : String :=
  let s := toString n
  "DRY_" ++ String.mk (List.replicate (6 - s.length) '0') ++ s

/-- The `free` component of `DryRunExecutor.get_balance`. -/
def DryRunExecutor.freeBalance (ex : DryRunExecutor) : ℚ :=
  ex.balance - (ex.positions.map (·.margin)).sum

/-- `DryRunExecutor.execute_trade`: increments the order counter, rejects
when the 1% margin exceeds the free balance, otherwise fills at the
requested price, appending the position and the order record. -/
def DryRunExecutor.execute_trade (ex : DryRunExecutor) (symbol side : String)
    (quantity entry_price : ℚ) (stop_loss take_profit : Option ℚ) (now : ℚ) :
    OrderResult × DryRunExecutor :=
  let counter := ex.order_counter + 1
  let order_id := fmtOrderId counter
  let margin_required := quantity * entry_price * (1 / 100)
  let free := ex.freeBalance
  if margin_required > free then
    ({ order_id := order_id, symbol := symbol, side := side,
       order_type := "MARKET", status := .rejected, entry_price := entry_price,
       filled_price := none, quantity := quantity, filled_quantity := 0,
       stop_loss := stop_loss, take_profit := take_profit, timestamp := now,
       error_message := some (.insufficientBalance margin_required free) },
     { ex with order_counter := counter })
  else
    let filled_price := entry_price
    let position : DryPosition :=
      { id := order_id, symbol := symbol, side := side, quantity := quantity,
        entry_price := filled_price, stop_loss := stop_loss,
        take_profit := take_profit, margin := margin_required,
        opened_at := now, pnl := 0 }
    let result : OrderResult :=
      { order_id := order_id, symbol := symbol, side := side,
        order_type := "MARKET", status := .filled, entry_price := entry_price,
        filled_price := some filled_price, quantity := quantity,
        filled_quantity := quantity, stop_loss := stop_loss,
        take_profit := take_profit, timestamp := now, error_message := none }
    (result,
     { ex with order_counter := counter,
               positions := ex.positions ++ [position],
               order_history := ex.order_history ++ [result] })

/-- `DryRunExecutor.close_position`: looks up the first position with the
given id (`next(...)`); unknown ids produce an ERROR result and leave the
state untouched; otherwise the realized PnL is credited and the position
removed (`list.remove`, i.e. the first structurally equal element). -/
def DryRunExecutor.close_position (ex : DryRunExecutor) (position_id : String)
    (exit_price : ℚ) (now : ℚ) : OrderResult × DryRunExecutor :=
  match ex.positions.find? (fun p => p.id == position_id) with
  | none =>
    ({ order_id := "CLOSE_" ++ position_id, symbol := "", side := "",
       order_type := "MARKET", status := .error, entry_price := 0,
       filled_price := none, quantity := 0, filled_quantity := 0,
       stop_loss := none, take_profit := none, timestamp := now,
       error_message := some (.positionNotFound position_id) }, ex)
  | some position =>
    let pnl :=
      if position.side == "BUY" then
        (exit_price - position.entry_price) * position.quantity
      else
        (position.entry_price - exit_price) * position.quantity
    ({ order_id := "CLOSE_" ++ position_id, symbol := position.symbol,
       side := if position.side == "BUY" then "SELL" else "BUY",
       order_type := "MARKET", status := .filled, entry_price := exit_price,
       filled_price := some exit_price, quantity := position.quantity,
       filled_quantity := position.quantity, stop_loss := none,
       take_profit := none, timestamp := now, error_message := none },
     { ex with balance := ex.balance + pnl,
               positions := ex.positions.erase position })

/-- `TradeExecutor.execute_signal` in dry-run mode: recomputes the position
size with the risk manager's default risk percent, rejects on invalid
sizing without touching the executor, otherwise places the market order
with `quantity = lot_size`. -/
def TradeExecutor.execute_signal (ex : DryRunExecutor) (rm : RiskManager)
    (symbol action : String) (entry_price stop_loss take_profit : ℚ)
    (now : ℚ) : OrderResult × DryRunExecutor :=
  let position_size :=
    rm.calculate_position_size symbol entry_price stop_loss take_profit none
  if ¬position_size.is_valid then
    ({ order_id := "", symbol := symbol, side := action,
       order_type := "MARKET", status := .rejected, entry_price := entry_price,
       filled_price := none, quantity := 0, filled_quantity := 0,
       stop_loss := some stop_loss, take_profit := some take_profit,
       timestamp := now,
       error_message := some (.sizingFailed position_size.warning) }, ex)
  else
    ex.execute_trade symbol action position_size.lot_size entry_price
      (some stop_loss) (some take_profit) now

/-!
Section: TradingBot (src/bot/trading_bot.py)
-/

/-- The `BotState` enum. -/
inductive BotStateE
  | stopped
  | starting
  | running
  | analyzing
  | trading
  | stopping
  | error
deriving DecidableEq, Repr

/-- The `BotConfig` dataclass with its declared fields. -/
structure BotConfig where
  dry_run : Bool
  symbol : String
  timeframe : String
  ema_fast : ℕ
  ema_medium : ℕ
  ema_slow : ℕ
  min_confidence : ℚ
  min_rrr : ℚ
  equity : ℚ
  leverage : Int
  risk_percent : ℚ
  max_risk_percent : ℚ
  exchange : String
  api_key : String
  api_secret : String
  sandbox : Bool
  analysis_interval : ℕ
  max_open_positions : ℕ
deriving DecidableEq, Repr

/-- The `TradeRecord` dataclass. -/
structure TradeRecord where
  id : String
  symbol : String
  side : String
  entry_price : ℚ
  exit_price : Option ℚ
  quantity : ℚ
  stop_loss : ℚ
  take_profit : ℚ
  status : String
  pnl : ℚ
  opened_at : ℚ
  closed_at : Option ℚ
deriving DecidableEq, Repr

/-- Messages logged by the bot paths embedded here; formatted strings in
the source, modelled as tags. -/
inductive LogMsg
  | maxPositionsReached (maxPositions : ℕ)
  | stateChanged (fromS toS : BotStateE)
  | positionInvalid (warning : List Wmsg)
  | positionInfo (lots risk : ℚ)
  | orderFilled (order_id : String)
  | orderFailed (err : Option Emsg)
  | configUpdated (key : String)
deriving DecidableEq, Repr

/-- A `BotLog` entry. -/
structure BotLog where
  timestamp : ℚ
  level : String
  message : LogMsg
deriving DecidableEq, Repr

/-- `TradingBot._log`: appends the entry and keeps only the last 1000
entries. -/
def pushLog (logs : List BotLog) (e : BotLog) : List BotLog :=
  let l := logs ++ [e]
  if l.length > 1000 then l.drop (l.length - 1000) else l

/-- Rounding half-to-even of a rational to an integer (Python `round`). -/
def roundHalfEven (y : ℚ) : Int :=
  let f := ratFloor y
  let r := y - (f : ℚ)
  if r < 1 / 2 then f
  else if 1 / 2 < r then f + 1
  else if f % 2 = 0 then f else f + 1

/-- Python `round(x, 5)` as used by `TradeSignal.to_dict` on the prices the
execution path reads back from the signal dictionary. -/
def pyRound5 (q : ℚ) : ℚ := (roundHalfEven (q * 100000) : ℚ) / 100000

/-- The slice of `TradingBot` state touched by `_execute_signal` (the bot in
dry-run mode, whose executor is the simulated ledger). -/
structure TradingBot where
  config : BotConfig
  rm : RiskManager
  exec : DryRunExecutor
  state : BotStateE
  logs : List BotLog
  open_positions : List TradeRecord
  trade_history : List TradeRecord
  stats_total_trades : ℕ
deriving DecidableEq, Repr

/-- `TradingBot._execute_signal`: skips with a warning at the position cap;
otherwise transitions to TRADING, sizes the position, aborts on invalid
sizing, and executes through `TradeExecutor.execute_signal` on the prices
round-tripped through `TradeSignal.to_dict` (rounded to 5 decimals); a
filled order appends a `TradeRecord`.  The `or` fallback of
`result.filled_price or signal.entry_price` treats both `None` and `0.0`
as absent, as Python does. -/
def TradingBot.execute_signal_step (bot : TradingBot) (signal : TradeSignalCore)
    (now : ℚ) : TradingBot :=
  if bot.open_positions.length ≥ bot.config.max_open_positions then
    { bot with
      logs := pushLog bot.logs
        ⟨now, "WARNING", .maxPositionsReached bot.config.max_open_positions⟩ }
  else
    let bot1 := { bot with
      state := BotStateE.trading,
      logs := pushLog bot.logs
        ⟨now, "INFO", .stateChanged bot.state BotStateE.trading⟩ }
    let position := bot1.rm.calculate_position_size bot1.config.symbol
      signal.entry_price signal.stop_loss signal.take_profit
      (some bot1.config.risk_percent)
    if ¬position.is_valid then
      { bot1 with
        logs := pushLog bot1.logs
          ⟨now, "WARNING", .positionInvalid position.warning⟩ }
    else
      let bot2 := { bot1 with
        logs := pushLog bot1.logs
          ⟨now, "INFO", .positionInfo position.lot_size position.risk_amount⟩ }
      let res := TradeExecutor.execute_signal bot2.exec bot2.rm
        bot2.config.symbol signal.action (pyRound5 signal.entry_price)
        (pyRound5 signal.stop_loss) (pyRound5 signal.take_profit) now
      let result := res.1
      let bot3 := { bot2 with exec := res.2 }
      if result.status = OrderStatus.filled then
        let entryFilled :=
          match result.filled_price with
          | some fp => if fp = 0 then signal.entry_price else fp
          | none => signal.entry_price
        let trade : TradeRecord :=
          { id := result.order_id, symbol := bot3.config.symbol,
            side := signal.action, entry_price := entryFilled,
            exit_price := none, quantity := result.filled_quantity,
            stop_loss := signal.stop_loss, take_profit := signal.take_profit,
            status := "open", pnl := 0, opened_at := now, closed_at := none }
        { bot3 with
          logs := pushLog bot3.logs ⟨now, "INFO", .orderFilled result.order_id⟩,
          open_positions := bot3.open_positions ++ [trade],
          stats_total_trades := bot3.stats_total_trades + 1 }
      else
        { bot3 with
          logs := pushLog bot3.logs
            ⟨now, "ERROR", .orderFailed result.error_message⟩ }

/-!
Section: TradingBot.update_config (src/bot/trading_bot.py)

`update_config` works through `hasattr`/`setattr` on the `BotConfig`
dataclass instance, so it is embedded against the instance's attribute
dictionary: an ordered association list from attribute name to a dynamic
Python value.
-/

/-- A dynamic Python value, as stored in a dataclass attribute. -/
inductive PyValue
  | b (x : Bool)
  | s (x : String)
  | i (x : Int)
  | q (x : ℚ)
deriving DecidableEq, Repr

/-- The attribute dictionary of a `BotConfig` instance. -/
structure ConfigObj where
  attrs : List (String × PyValue)
deriving DecidableEq, Repr

/-- The attributes of a freshly constructed default `BotConfig`, in
declaration order. -/
def botConfigDefaultAttrs : ConfigObj :=
  ⟨[("dry_run", .b true), ("symbol", .s "BTCUSDT"), ("timeframe", .s "1h"),
    ("ema_fast", .i 9), ("ema_medium", .i 21), ("ema_slow", .i 200),
    ("min_confidence", .q 60), ("min_rrr", .q (3 / 2)),
    ("equity", .q 10000), ("leverage", .i 100), ("risk_percent", .q 1),
    ("max_risk_percent", .q 2), ("exchange", .s "binance"),
    ("api_key", .s ""), ("api_secret", .s ""), ("sandbox", .b true),
    ("analysis_interval", .i 60), ("max_open_positions", .i 1)]⟩

/-- Python `hasattr(config, key)`. -/
def hasattrC (c : ConfigObj) (key : String) : Bool :=
  c.attrs.any (fun kv => kv.1 == key)

/-- Python `setattr(config, key, value)` on an existing attribute. -/
def setattrC (c : ConfigObj) (key : String) (v : PyValue) : ConfigObj :=
  ⟨c.attrs.map (fun kv => if kv.1 == key then (kv.1, v) else kv)⟩

/-- Python `getattr(config, key, None)`. -/
def getattrC (c : ConfigObj) (key : String) : Option PyValue :=
  (c.attrs.find? (fun kv => kv.1 == key)).map (·.2)

/-- The slice of `TradingBot` state visible to `update_config`: the config
object it mutates, the log it appends to, and the rest of the bot state it
never mentions. -/
structure BotObj where
  config : ConfigObj
  logs : List BotLog
  open_positions : List TradeRecord
  trade_history : List TradeRecord
  stats_total_trades : ℕ
deriving DecidableEq, Repr

/-- `TradingBot.update_config`: for each update entry in order, sets the
attribute and logs when the key is an attribute of the config, and does
nothing otherwise. -/
def update_config (bot : BotObj) (updates : List (String × PyValue))
    (now : ℚ) : BotObj :=
  updates.foldl
    (fun b kv =>
      if hasattrC b.config kv.1 then
        { b with config := setattrC b.config kv.1 kv.2,
                 logs := pushLog b.logs ⟨now, "INFO", .configUpdated kv.1⟩ }
      else b)
    bot

/-!
Section: Concrete instances used by the witness theorems
-/

/-- A risk manager as in the source's usage example: 10000 equity, 1:100
leverage, standard account. -/
def exampleRiskManager : RiskManager :=
  { equity := 10000, leverage := 100, account_type := "standard",
    max_risk_percent := 2, default_risk_percent := 1 }

/-- A strategy engine with the source's default parameters. -/
def exampleEngine : StrategyEngine :=
  { ema_fast := 9, ema_medium := 21, ema_slow := 200, swing_lookback := 10,
    min_rrr := 3 / 2, min_confidence := 60 }

/-- An open simulated long position. -/
def examplePosition : DryPosition :=
  { id := "DRY_000001", symbol := "XAUUSD", side := "BUY", quantity := 2,
    entry_price := 100, stop_loss := none, take_profit := none, margin := 2,
    opened_at := 0, pnl := 0 }

/-- An open simulated short position. -/
def exampleSellPosition : DryPosition :=
  { id := "DRY_000002", symbol := "XAUUSD", side := "SELL", quantity := 3,
    entry_price := 200, stop_loss := none, take_profit := none, margin := 6,
    opened_at := 0, pnl := 0 }

/-- A dry-run executor holding the two example positions. -/
def exampleExecutor : DryRunExecutor :=
  { balance := 10000, positions := [examplePosition, exampleSellPosition],
    order_history := [], order_counter := 2, is_connected := true }

/-- A dry-run executor with a small balance and no positions. -/
def exampleSmallExecutor : DryRunExecutor :=
  { balance := 100, positions := [], order_history := [], order_counter := 0,
    is_connected := true }

/-- The default `BotConfig` of the dataclass. -/
def exampleBotConfig : BotConfig :=
  { dry_run := true, symbol := "BTCUSDT", timeframe := "1h", ema_fast := 9,
    ema_medium := 21, ema_slow := 200, min_confidence := 60, min_rrr := 3 / 2,
    equity := 10000, leverage := 100, risk_percent := 1, max_risk_percent := 2,
    exchange := "binance", api_key := "", api_secret := "", sandbox := true,
    analysis_interval := 60, max_open_positions := 1 }

/-- An open trade record held by the bot. -/
def exampleTradeRecord : TradeRecord :=
  { id := "DRY_000001", symbol := "BTCUSDT", side := "BUY", entry_price := 100,
    exit_price := none, quantity := 1, stop_loss := 95, take_profit := 110,
    status := "open", pnl := 0, opened_at := 0, closed_at := none }

/-- A signal at the bot's capacity boundary. -/
def exampleSignal : TradeSignalCore :=
  { action := "BUY", entry_price := 100, stop_loss := 95, take_profit := 110,
    swing_point := 95, ema_9 := 99, ema_21 := 98, ema_200 := 90,
    risk_reward_ratio := 3 / 2, confidence := 80, reason := [] }

/-- A bot at its `max_open_positions = 1` capacity. -/
def exampleBot : TradingBot :=
  { config := exampleBotConfig, rm := exampleRiskManager,
    exec := { balance := 10000, positions := [], order_history := [],
              order_counter := 0, is_connected := true },
    state := .running, logs := [], open_positions := [exampleTradeRecord],
    trade_history := [], stats_total_trades := 1 }

/-- A bot view with the default config attributes, for `update_config`. -/
def exampleBotObj : BotObj :=
  { config := botConfigDefaultAttrs, logs := [], open_positions := [],
    trade_history := [], stats_total_trades := 0 }

/-!
Section: Theorems
-/


attribute [local semireducible] Rat.mul Rat.add Rat.sub Rat.inv Rat.ofScientific

theorem pipValuesGet_pos (s : String) : 0 < pipValuesGet s := by
  unfold pipValuesGet
  cases h : PIP_VALUES.find? (fun kv => kv.1 == s) with
  | none => norm_num
  | some kv =>
    have hmem : kv ∈ PIP_VALUES := List.mem_of_find?_eq_some h
    have hall : ∀ kv ∈ PIP_VALUES, (0 : ℚ) < kv.2 := by decide
    simpa using hall kv hmem

theorem lotSizesGet_pos (t : String) : 0 < lotSizesGet t := by
  unfold lotSizesGet
  cases h : LOT_SIZES.find? (fun kv => kv.1 == t) with
  | none => norm_num
  | some kv =>
    have hmem : kv ∈ LOT_SIZES := List.mem_of_find?_eq_some h
    have hall : ∀ kv ∈ LOT_SIZES, (0 : ℚ) < kv.2 := by decide
    simpa using hall kv hmem

theorem get_pip_value_pos (rm : RiskManager) (symbol : String) :
    0 < rm.get_pip_value symbol 1 := by
  have h1 := pipValuesGet_pos (upperNoSlash symbol)
  have h2 : (0 : ℚ) < rm.lot_multiplier := lotSizesGet_pos rm.account_type
  have h3 : (0 : ℚ) < lotSizesGet "standard" := lotSizesGet_pos "standard"
  unfold RiskManager.get_pip_value
  exact mul_pos (mul_pos h1 one_pos) (div_pos h2 h3)

/-- Claim C1: whenever `calculate_position_size` returns a valid result, its
`potential_loss` equals its `risk_amount` within a relative tolerance of
one millionth (in the exact-arithmetic embedding they are equal, so the
difference is zero). -/
theorem C1_potential_loss_matches_risk_amount (rm : RiskManager)
    (symbol : String) (entry stop tp : ℚ) (rp? : Option ℚ)
    (h : (rm.calculate_position_size symbol entry stop tp rp?).is_valid = true) :
    |(rm.calculate_position_size symbol entry stop tp rp?).potential_loss
        - (rm.calculate_position_size symbol entry stop tp rp?).risk_amount|
      ≤ |(rm.calculate_position_size symbol entry stop tp rp?).risk_amount|
          * (1 / 1000000) := by
  by_cases hs : rm.calculate_pips symbol entry stop ≤ 0
  · exfalso
    simp only [RiskManager.calculate_position_size, if_pos hs] at h
    exact Bool.false_ne_true h
  · have hsp : 0 < rm.calculate_pips symbol entry stop := lt_of_not_le hs
    have hpv : 0 < rm.get_pip_value symbol 1 := get_pip_value_pos rm symbol
    have hne : rm.calculate_pips symbol entry stop * rm.get_pip_value symbol 1 ≠ 0 :=
      ne_of_gt (mul_pos hsp hpv)
    simp only [RiskManager.calculate_position_size, if_neg hs]
    rw [mul_comm (rm.calculate_pips symbol entry stop) (rm.get_pip_value symbol 1)]
    rw [mul_comm]
    rw [div_mul_cancel₀ _ (by rwa [mul_comm] at hne)]
    simp only [sub_self, abs_zero]
    positivity

/-- Witness for C1 at a concrete valid sizing request (EURUSD, 50-pip stop,
1% risk on 10000 equity). -/
theorem C1_potential_loss_matches_risk_amount_witness :
    (exampleRiskManager.calculate_position_size "EURUSD" (11 / 10)
        (1095 / 1000) (111 / 100) (some 1)).is_valid = true
    ∧ |(exampleRiskManager.calculate_position_size "EURUSD" (11 / 10)
          (1095 / 1000) (111 / 100) (some 1)).potential_loss
        - (exampleRiskManager.calculate_position_size "EURUSD" (11 / 10)
            (1095 / 1000) (111 / 100) (some 1)).risk_amount|
      ≤ |(exampleRiskManager.calculate_position_size "EURUSD" (11 / 10)
            (1095 / 1000) (111 / 100) (some 1)).risk_amount| * (1 / 1000000) :=
  ⟨by decide,
   C1_potential_loss_matches_risk_amount exampleRiskManager "EURUSD"
     (11 / 10) (1095 / 1000) (111 / 100) (some 1) (by decide)⟩

/-- Claim C4: when the stop price equals the entry price the stop distance
is not positive, and `calculate_position_size` returns an invalid result
with zero lot size and zero units. -/
theorem C4_zero_stop_distance_invalid (rm : RiskManager) (symbol : String)
    (entry tp : ℚ) (rp? : Option ℚ) :
    (rm.calculate_position_size symbol entry entry tp rp?).is_valid = false
    ∧ (rm.calculate_position_size symbol entry entry tp rp?).lot_size = 0
    ∧ (rm.calculate_position_size symbol entry entry tp rp?).units = 0 := by
  have hs : rm.calculate_pips symbol entry entry ≤ 0 := by
    unfold RiskManager.calculate_pips
    simp [ratAbs]
  simp [RiskManager.calculate_position_size, if_pos hs]

/-- Claim C3 (amended): for every sizing request that passes the
stop-distance gate, if the computed required margin exceeds the equity the
result is invalid and carries the margin warning; in the concrete scenario
(equity 10000, leverage 100, XAUUSD, entry 2050, stop 2040, risk 1%) the
lot size is 0.10 and the required margin is 205000 > equity, so the result
is invalid. -/
theorem C3_margin_exceeds_equity_invalid (rm : RiskManager) (symbol : String)
    (entry stop tp : ℚ) (rp? : Option ℚ)
    (h1 : 0 < rm.calculate_pips symbol entry stop)
    (h2 : (rm.calculate_position_size symbol entry stop tp rp?).margin_required
            > rm.equity) :
    ((rm.calculate_position_size symbol entry stop tp rp?).is_valid = false
      ∧ Wmsg.marginExceeded
          ∈ (rm.calculate_position_size symbol entry stop tp rp?).warning)
    ∧ (exampleRiskManager.calculate_position_size "XAUUSD" 2050 2040 2065
        (some 1)).lot_size = 1 / 10
    ∧ (exampleRiskManager.calculate_position_size "XAUUSD" 2050 2040 2065
        (some 1)).margin_required = 205000
    ∧ (exampleRiskManager.calculate_position_size "XAUUSD" 2050 2040 2065
        (some 1)).margin_required > exampleRiskManager.equity
    ∧ (exampleRiskManager.calculate_position_size "XAUUSD" 2050 2040 2065
        (some 1)).is_valid = false
    ∧ Wmsg.marginExceeded
        ∈ (exampleRiskManager.calculate_position_size "XAUUSD" 2050 2040 2065
            (some 1)).warning := by
  have hs : ¬ rm.calculate_pips symbol entry stop ≤ 0 := not_le.mpr h1
  simp only [RiskManager.calculate_position_size, if_neg hs] at h2
  refine ⟨⟨?_, ?_⟩, by decide, by decide, by decide, by decide, by decide⟩
  · simp only [RiskManager.calculate_position_size, if_neg hs, if_pos h2]
  · simp only [RiskManager.calculate_position_size, if_neg hs, if_pos h2]
    split_ifs <;> simp

/-- Witness for C3 at the concrete scenario inputs, which satisfy both
hypotheses of the amended theorem. -/
theorem C3_margin_exceeds_equity_invalid_witness :
    (exampleRiskManager.calculate_position_size "XAUUSD" 2050 2040 2065
        (some 1)).is_valid = false
    ∧ Wmsg.marginExceeded
        ∈ (exampleRiskManager.calculate_position_size "XAUUSD" 2050 2040 2065
            (some 1)).warning :=
  (C3_margin_exceeds_equity_invalid exampleRiskManager "XAUUSD" 2050 2040 2065
    (some 1) (by decide) (by decide)).1

/-- Counterexample for C3 as frozen: at the claim's own scenario the
computed required margin is exactly 205000, not approximately 20500 (it
exceeds 20500 by more than 20500 itself, a relative error of 900%). -/
theorem C3_margin_not_twenty_thousand :
    (exampleRiskManager.calculate_position_size "XAUUSD" 2050 2040 2065
        (some 1)).margin_required = 205000
    ∧ 20500 < (exampleRiskManager.calculate_position_size "XAUUSD" 2050 2040
        2065 (some 1)).margin_required - 20500 := by
  constructor
  · decide
  · decide

/-- Claim C2: on any candle window shorter than
`max(ema_slow + 10, 250)` the signal engine returns no signal (the embedded
function is total, so no exception is possible). -/
theorem C2_insufficient_candles_no_signal (eng : StrategyEngine)
    (data : List Candle) (now : ℚ)
    (h : data.length < max (eng.ema_slow + 10) 250) :
    get_signal eng data now = none := by
  simp only [get_signal, get_signalCore, if_pos h, Option.map_none']

/-- Witness for C2: the default engine on an empty candle list. -/
theorem C2_insufficient_candles_no_signal_witness :
    get_signal exampleEngine [] 0 = none :=
  C2_insufficient_candles_no_signal exampleEngine [] 0 (by decide)

/-- Claim C6: `get_signal` is deterministic: two invocations on the same
candles and parameters at different clock readings agree on every field of
the result except the signal's own timestamp (and agree on producing or not
producing a signal). -/
theorem C6_get_signal_deterministic (eng : StrategyEngine)
    (data : List Candle) (t1 t2 : ℚ) :
    Option.map stripTimestamp (get_signal eng data t1)
      = Option.map stripTimestamp (get_signal eng data t2) := by
  unfold get_signal
  cases get_signalCore eng data <;> simp [stripTimestamp]

/-- Claim C9: the volume-confirmation bonus of `calculate_confidence` is 15
for every volume ratio above 1.2 and 0 otherwise; the 25-point high-volume
branch is dead because the 1.2 test subsumes it. -/
theorem C9_volume_bonus_is_fifteen :
    (∀ vr : ℚ, volumeBonus vr = if vr > 6 / 5 then 15 else 0)
    ∧ (∀ (action : String) (close e9 e21 e200 vr : ℚ),
        calculate_confidence action close e9 e21 e200 vr
          = max 0 (min 100 (directionScore action close e9 e21 e200
              + (if vr > 6 / 5 then 15 else 0)))) := by
  have hv : ∀ vr : ℚ, volumeBonus vr = if vr > 6 / 5 then 15 else 0 := by
    intro vr
    unfold volumeBonus
    split_ifs with hA hB
    · rfl
    · exact absurd (lt_trans (by norm_num) hB) hA
    · rfl
  exact ⟨hv, fun action close e9 e21 e200 vr => by
    unfold calculate_confidence
    rw [hv]⟩

/-- Claim C5: closing an existing position returns FILLED, credits the
balance with exactly the side-adjusted realized PnL, and removes that
position from the ledger; closing an unknown position id returns ERROR and
leaves the executor state unchanged. -/
theorem C5_close_position_spec (ex : DryRunExecutor) (pid : String)
    (x now : ℚ) :
    (∀ p, ex.positions.find? (fun q => q.id == pid) = some p →
        ((ex.close_position pid x now).1.status = OrderStatus.filled
        ∧ (ex.close_position pid x now).2.balance
            = ex.balance
              + (if p.side == "BUY" then (x - p.entry_price) * p.quantity
                 else (p.entry_price - x) * p.quantity)
        ∧ (ex.close_position pid x now).2.positions = ex.positions.erase p
        ∧ (ex.close_position pid x now).2.positions.length + 1
            = ex.positions.length))
    ∧ (ex.positions.find? (fun q => q.id == pid) = none →
        ((ex.close_position pid x now).1.status = OrderStatus.error
        ∧ (ex.close_position pid x now).2 = ex)) := by
  constructor
  · intro p hp
    have hmem : p ∈ ex.positions := List.mem_of_find?_eq_some hp
    have hlen : (ex.positions.erase p).length = ex.positions.length - 1 :=
      List.length_erase_of_mem hmem
    have hpos : 0 < ex.positions.length :=
      List.length_pos.mpr (List.ne_nil_of_mem hmem)
    unfold DryRunExecutor.close_position
    rw [hp]
    refine ⟨rfl, rfl, rfl, ?_⟩
    dsimp only
    omega
  · intro hn
    unfold DryRunExecutor.close_position
    rw [hn]
    exact ⟨rfl, rfl⟩

/-- Witness for C5: closing the held long position succeeds, closing an
unknown id errors, on a concrete two-position ledger. -/
theorem C5_close_position_spec_witness :
    ((exampleExecutor.close_position "DRY_000001" 110 7).1.status
        = OrderStatus.filled
      ∧ (exampleExecutor.close_position "DRY_000001" 110 7).2.balance
          = exampleExecutor.balance
            + (if examplePosition.side == "BUY"
               then (110 - examplePosition.entry_price) * examplePosition.quantity
               else (examplePosition.entry_price - 110) * examplePosition.quantity))
    ∧ ((exampleExecutor.close_position "NOPE" 110 7).1.status
        = OrderStatus.error
      ∧ (exampleExecutor.close_position "NOPE" 110 7).2 = exampleExecutor) :=
  ⟨⟨((C5_close_position_spec exampleExecutor "DRY_000001" 110 7).1
      examplePosition (by decide)).1,
    ((C5_close_position_spec exampleExecutor "DRY_000001" 110 7).1
      examplePosition (by decide)).2.1⟩,
   (C5_close_position_spec exampleExecutor "NOPE" 110 7).2 (by decide)⟩

/-- Claim C8: when the simulated executor rejects an order for insufficient
free balance, the balance, the open positions and the order history are
unchanged and only the order counter is incremented. -/
theorem C8_rejected_trade_frame (ex : DryRunExecutor) (symbol side : String)
    (qty entry : ℚ) (sl tp : Option ℚ) (now : ℚ)
    (h : qty * entry * (1 / 100) > ex.freeBalance) :
    (ex.execute_trade symbol side qty entry sl tp now).1.status
        = OrderStatus.rejected
    ∧ (ex.execute_trade symbol side qty entry sl tp now).2.balance = ex.balance
    ∧ (ex.execute_trade symbol side qty entry sl tp now).2.positions
        = ex.positions
    ∧ (ex.execute_trade symbol side qty entry sl tp now).2.order_history
        = ex.order_history
    ∧ (ex.execute_trade symbol side qty entry sl tp now).2.order_counter
        = ex.order_counter + 1 := by
  simp only [DryRunExecutor.execute_trade]
  rw [if_pos h]
  exact ⟨rfl, rfl, rfl, rfl, rfl⟩

/-- Witness for C8: an oversized order against a 100-balance executor. -/
theorem C8_rejected_trade_frame_witness :
    (exampleSmallExecutor.execute_trade "BTCUSDT" "BUY" 1000 100 none none
        9).1.status = OrderStatus.rejected
    ∧ (exampleSmallExecutor.execute_trade "BTCUSDT" "BUY" 1000 100 none none
        9).2.order_counter = exampleSmallExecutor.order_counter + 1 :=
  ⟨(C8_rejected_trade_frame exampleSmallExecutor "BTCUSDT" "BUY" 1000 100
      none none 9 (by decide)).1,
   (C8_rejected_trade_frame exampleSmallExecutor "BTCUSDT" "BUY" 1000 100
      none none 9 (by decide)).2.2.2.2⟩

theorem execute_signal_step_config (bot : TradingBot) (s : TradeSignalCore)
    (t : ℚ) : (bot.execute_signal_step s t).config = bot.config := by
  simp only [TradingBot.execute_signal_step]
  split_ifs <;> rfl

theorem execute_signal_step_len (bot : TradingBot) (s : TradeSignalCore)
    (t : ℚ) (h : bot.open_positions.length ≤ bot.config.max_open_positions) :
    (bot.execute_signal_step s t).open_positions.length
      ≤ bot.config.max_open_positions := by
  simp only [TradingBot.execute_signal_step]
  split_ifs with h1 h2 h3
  · exact h
  · simp only [List.length_append, List.length_cons, List.length_nil]
    omega
  · exact h
  · exact h

/-- Claim C7: a bot at its open-position cap skips the signal, changing
nothing but the log (in particular the executor never sees an order), and
consequently the number of open positions never exceeds the configured cap
over any sequence of executed signals. -/
theorem C7_max_open_positions_cap :
    (∀ (bot : TradingBot) (s : TradeSignalCore) (t : ℚ),
        bot.open_positions.length ≥ bot.config.max_open_positions →
        bot.execute_signal_step s t
          = { bot with
              logs := pushLog bot.logs
                ⟨t, "WARNING",
                 .maxPositionsReached bot.config.max_open_positions⟩ })
    ∧ (∀ (bot : TradingBot) (steps : List (TradeSignalCore × ℚ)),
        bot.open_positions.length ≤ bot.config.max_open_positions →
        (steps.foldl (fun b sc => b.execute_signal_step sc.1 sc.2)
            bot).open_positions.length
          ≤ bot.config.max_open_positions) := by
  constructor
  · intro bot s t h
    unfold TradingBot.execute_signal_step
    rw [if_pos h]
  · intro bot steps
    induction steps generalizing bot with
    | nil => intro h; exact h
    | cons sc rest ih =>
      intro h
      have hcfg := execute_signal_step_config bot sc.1 sc.2
      have hlen := execute_signal_step_len bot sc.1 sc.2 h
      have hrec := ih (bot.execute_signal_step sc.1 sc.2)
        (by rw [hcfg]; exact hlen)
      rw [hcfg] at hrec
      simpa using hrec

/-- Witness for C7: a bot holding one position with a cap of one skips the
next signal, and one more cycle keeps the position count at the cap. -/
theorem C7_max_open_positions_cap_witness :
    exampleBot.execute_signal_step exampleSignal 3
      = { exampleBot with
          logs := pushLog exampleBot.logs
            ⟨3, "WARNING",
             .maxPositionsReached exampleBot.config.max_open_positions⟩ }
    ∧ ([(exampleSignal, (3 : ℚ))].foldl
          (fun b sc => b.execute_signal_step sc.1 sc.2)
          exampleBot).open_positions.length
        ≤ exampleBot.config.max_open_positions :=
  ⟨C7_max_open_positions_cap.1 exampleBot exampleSignal 3 (by decide),
   C7_max_open_positions_cap.2 exampleBot [(exampleSignal, 3)] (by decide)⟩

theorem hasattr_setattr (c : ConfigObj) (kp : String) (v : PyValue)
    (k : String) : hasattrC (setattrC c kp v) k = hasattrC c k := by
  obtain ⟨l⟩ := c
  unfold hasattrC setattrC
  simp only
  induction l with
  | nil => rfl
  | cons a t ih =>
    have hh : ((if a.1 == kp then (a.1, v) else a).1 == k) = (a.1 == k) := by
      split <;> rfl
    simp only [List.map_cons, List.any_cons, hh, ih]

theorem getattr_setattr_ne (c : ConfigObj) (kp : String) (v : PyValue)
    (k : String) (h : k ≠ kp) :
    getattrC (setattrC c kp v) k = getattrC c k := by
  obtain ⟨l⟩ := c
  unfold getattrC setattrC
  simp only
  induction l with
  | nil => rfl
  | cons a t ih =>
    simp only [List.map_cons, List.find?_cons]
    by_cases hbk : (a.1 == kp) = true
    · have ha1 : a.1 = kp := by simpa using hbk
      have hpk : (a.1 == k) = false := by
        refine beq_eq_false_iff_ne.mpr ?_
        rw [ha1]
        exact fun e => h e.symm
      rw [if_pos hbk]
      simp only [hpk]
      exact ih
    · rw [if_neg hbk]
      cases hak : (a.1 == k) with
      | true => simp only [hak]
      | false =>
        simp only [hak]
        exact ih

theorem update_config_getattr (bot : BotObj)
    (updates : List (String × PyValue)) (now : ℚ) (k : String)
    (h : k ∉ updates.map Prod.fst) :
    getattrC (update_config bot updates now).config k
      = getattrC bot.config k := by
  unfold update_config
  revert h
  induction updates generalizing bot with
  | nil => intro h; rfl
  | cons kv rest ih =>
    intro h
    simp only [List.map_cons, List.mem_cons, not_or] at h
    obtain ⟨h1, h2⟩ := h
    simp only [List.foldl_cons]
    rw [ih _ h2]
    by_cases hx : hasattrC bot.config kv.1 = true
    · rw [if_pos hx]
      exact getattr_setattr_ne bot.config kv.1 kv.2 k h1
    · rw [if_neg hx]

theorem update_config_filter_eq (bot : BotObj)
    (updates : List (String × PyValue)) (now : ℚ) :
    update_config bot updates now
      = update_config bot
          (updates.filter (fun kv => hasattrC bot.config kv.1)) now := by
  unfold update_config
  induction updates generalizing bot with
  | nil => rfl
  | cons kv rest ih =>
    cases hb : hasattrC bot.config kv.1 with
    | false =>
      have hfil : (kv :: rest).filter (fun kv2 => hasattrC bot.config kv2.1)
          = rest.filter (fun kv2 => hasattrC bot.config kv2.1) := by
        simp [List.filter_cons, hb]
      rw [hfil]
      simp only [List.foldl_cons]
      rw [if_neg (by simp [hb])]
      exact ih bot
    | true =>
      have hfil : (kv :: rest).filter (fun kv2 => hasattrC bot.config kv2.1)
          = kv :: rest.filter (fun kv2 => hasattrC bot.config kv2.1) := by
        simp [List.filter_cons, hb]
      rw [hfil]
      simp only [List.foldl_cons]
      rw [if_pos hb]
      have hcongr :
          rest.filter (fun kv2 =>
            hasattrC (setattrC bot.config kv.1 kv.2) kv2.1)
          = rest.filter (fun kv2 => hasattrC bot.config kv2.1) :=
        List.filter_congr (fun a _ => by rw [hasattr_setattr])
      rw [ih]
      dsimp only
      rw [hcongr]

theorem update_config_rest (bot : BotObj)
    (updates : List (String × PyValue)) (now : ℚ) :
    (update_config bot updates now).open_positions = bot.open_positions
    ∧ (update_config bot updates now).trade_history = bot.trade_history
    ∧ (update_config bot updates now).stats_total_trades
        = bot.stats_total_trades := by
  unfold update_config
  induction updates generalizing bot with
  | nil => exact ⟨rfl, rfl, rfl⟩
  | cons kv rest ih =>
    simp only [List.foldl_cons]
    refine ⟨?_, ?_, ?_⟩
    · rw [(ih _).1]
      split_ifs <;> rfl
    · rw [(ih _).2.1]
      split_ifs <;> rfl
    · rw [(ih _).2.2]
      split_ifs <;> rfl

/-- Claim C10: `update_config` silently ignores keys that are not config
attributes (removing them from the update map does not change the result),
changes only the attributes named by the matching keys, and leaves the rest
of the bot state (positions, history, stats) unchanged. -/
theorem C10_update_config_frame (bot : BotObj)
    (updates : List (String × PyValue)) (now : ℚ) :
    (∀ k, k ∉ updates.map Prod.fst →
        getattrC (update_config bot updates now).config k
          = getattrC bot.config k)
    ∧ update_config bot updates now
        = update_config bot
            (updates.filter (fun kv => hasattrC bot.config kv.1)) now
    ∧ (update_config bot updates now).open_positions = bot.open_positions
    ∧ (update_config bot updates now).trade_history = bot.trade_history
    ∧ (update_config bot updates now).stats_total_trades
        = bot.stats_total_trades :=
  ⟨fun k h => update_config_getattr bot updates now k h,
   update_config_filter_eq bot updates now,
   (update_config_rest bot updates now).1,
   (update_config_rest bot updates now).2.1,
   (update_config_rest bot updates now).2.2⟩

/-- Witness for C10: updating the symbol together with an unknown key keeps
every unnamed attribute (here `equity`) and the non-config state intact. -/
theorem C10_update_config_frame_witness :
    getattrC (update_config exampleBotObj
        [("symbol", PyValue.s "ETHUSDT"), ("bogus", PyValue.i 5)] 7).config
        "equity"
      = getattrC exampleBotObj.config "equity"
    ∧ (update_config exampleBotObj
        [("symbol", PyValue.s "ETHUSDT"), ("bogus", PyValue.i 5)]
        7).open_positions = exampleBotObj.open_positions :=
  ⟨(C10_update_config_frame exampleBotObj
      [("symbol", PyValue.s "ETHUSDT"), ("bogus", PyValue.i 5)] 7).1
      "equity" (by decide),
   (C10_update_config_frame exampleBotObj
      [("symbol", PyValue.s "ETHUSDT"), ("bogus", PyValue.i 5)] 7).2.2.1⟩
